import Mathlib

/-!
Verification development for the `sre_agent` repository, which consists of two
monitoring scripts: `github_repo_watcher.py` (a GitHub repository monitor with
a bounded-worker concurrent dispatcher) and `jira_support_board_watcher.py`
(a Jira support-board triage reporter).

The Lean definitions below are a shallow embedding of the program fragments the
claims are about.  Conventions used throughout:

* Python dictionaries assembled by the scripts become Lean structures whose
  field names follow the dictionary keys.
* A dictionary key that may be absent becomes an `Option` field
  (`none` = key absent).
* A Python function that may raise an exception becomes a Lean function
  returning `Except String _`, with the error payload standing for the
  exception message; the surrounding control flow (try/except, loops that
  abort on an uncaught exception) is translated into explicit `Except`
  plumbing.
* Timestamp strings parsed with `datetime.fromisoformat` are modelled as
  `Option Nat` fields: `some t` is a parseable timestamp with order-value `t`
  (chronological order of parsed datetimes becomes `≤` on `Nat`), `none` is a
  missing/empty/unparseable `created` string, on which `fromisoformat` raises
  `ValueError`.
* `list.sort(key=...)` in Python is a stable ascending sort; it is embedded as
  `List.insertionSort` (stable, structural, hence executable) over the
  pulled-back key order.
-/

/-! ## GitHub repository watcher: data model (`github_repo_watcher.py`) -/

/-- One commit record as assembled by `get_recent_commits`
(lines 171-197): sha, first line of the message, author and date. -/
structure Commit where
  sha : String
  message : String
  author : String
  date : String
deriving DecidableEq, Repr

/-- One pull-request record as assembled by `get_recent_prs` (lines 199-237). -/
structure PullRequest where
  number : Nat
  title : String
  state : String
  author : String
  updated_at : String
  url : String
deriving DecidableEq, Repr

/-- One Dependabot alert record as assembled by `get_dependabot_alerts`
(lines 239-263); `severity` is the advisory severity string
(critical / high / medium / low). -/
structure Alert where
  number : Nat
  severity : String
  package : String
  summary : String
  cve_id : String
  url : String
  created_at : String
deriving DecidableEq, Repr

/-- The per-repository result dictionary (the spec's `EntityResult`) built by
`analyze_repo` (lines 277-284) and, for failed analyses, by the except-branch
of `analyze_repos_parallel` (lines 320-328).  The `error` key is present
(`some msg`) only on synthetic failure results. -/
structure RepoResult where
  repo : String
  recent_commits : List Commit
  recent_prs : List PullRequest
  dependabot_alerts : List Alert
  has_activity : Bool
  has_vulnerabilities : Bool
  error : Option String := none
deriving DecidableEq, Repr

/-! ## GitHub repository watcher: dispatcher (lines 286-332 and 485-494)

The per-repository analysis function (`analyze_repo` closed over the stubbed
remote query client) is abstracted as `analyze : String → Except String
RepoResult`; `Except.error msg` models `analyze_repo` raising an exception
whose `str` is `msg`. -/

/-- The synthetic failed result appended by the except-branch of
`analyze_repos_parallel` (lines 320-328): all three lists empty, both flags
false, `error` populated with the exception message. -/
def syntheticFailure (repo msg : String) : RepoResult :=
  { repo := repo
    recent_commits := []
    recent_prs := []
    dependabot_alerts := []
    has_activity := false
    has_vulnerabilities := false
    error := some msg }

/-- The result collected for one repository inside the `as_completed` loop of
`analyze_repos_parallel` (lines 303-328): the analysis value on success, the
synthetic failure result when the analysis raised. -/
def futureResult (analyze : String → Except String RepoResult) (repo : String) : RepoResult :=
  match analyze repo with
  | .ok r => r
  | .error msg => syntheticFailure repo msg

/-- The key order of the final `results.sort(key=lambda x: x['repo'])`
(line 331). -/
def byRepo (a b : RepoResult) : Prop := a.repo ≤ b.repo

instance : DecidableRel byRepo := fun a b => inferInstanceAs (Decidable (a.repo ≤ b.repo))

instance : IsTotal RepoResult byRepo := ⟨fun a b => le_total a.repo b.repo⟩

instance : IsTrans RepoResult byRepo := ⟨fun _ _ _ h1 h2 => le_trans h1 h2⟩

/-- `analyze_repos_parallel` (lines 286-332): results are collected in
completion order (`completionOrder`, a permutation of the submitted
repositories chosen nondeterministically by the thread pool), each failure
replaced by a synthetic failed result, and the batch is finally sorted by
repository name with Python's stable `list.sort`. -/
def analyze_repos_parallel (analyze : String → Except String RepoResult)
    (completionOrder : List String) : List RepoResult :=
  List.insertionSort byRepo (completionOrder.map (futureResult analyze))

/-- The sequential branch of `run` (lines 488-494): `analyze_repo` is called
for each repository in order with no try/except, so an exception propagates
and aborts the run, discarding the results gathered so far. -/
def runSequential (analyze : String → Except String RepoResult) :
    List String → Except String (List RepoResult)
  | [] => .ok []
  | repo :: rest =>
    match analyze repo with
    | .error msg => .error msg
    | .ok r =>
      match runSequential analyze rest with
      | .error msg => .error msg
      | .ok rs => .ok (r :: rs)

/-! ## GitHub repository watcher: report classification (`generate_report`,
lines 334-464) -/

/-- Line 376: repositories with both activity and vulnerabilities. -/
def high_priority (results : List RepoResult) : List RepoResult :=
  results.filter (fun r => r.has_activity && r.has_vulnerabilities)

/-- Line 413: repositories with vulnerabilities but no recent activity. -/
def vulnerable_only (results : List RepoResult) : List RepoResult :=
  results.filter (fun r => r.has_vulnerabilities && !r.has_activity)

/-- Line 438: active repositories without vulnerabilities. -/
def active_clean (results : List RepoResult) : List RepoResult :=
  results.filter (fun r => r.has_activity && !r.has_vulnerabilities)

/-- Line 452: quiet repositories (no activity, no vulnerabilities, and the
`error` key absent). -/
def quiet_repos (results : List RepoResult) : List RepoResult :=
  results.filter (fun r => !r.has_activity && !r.has_vulnerabilities && r.error.isNone)

/-- Line 349: the results counted as errored (`'error' in r`). -/
def errored_results (results : List RepoResult) : List RepoResult :=
  results.filter (fun r => r.error.isSome)

/-! ## GitHub repository watcher: remote query client (`_run_gh_command`,
lines 54-73) and one representative caller (`get_recent_commits`,
lines 171-197) -/

/-- The possible outcomes of the `subprocess.run(['gh'] + args, ..., check=True)`
call inside `_run_gh_command`. -/
inductive GhOutcome where
  | completed (stdout : String)
  | processError (stderr : String)
  | timedOut
  | otherFailure (msg : String)
deriving DecidableEq, Repr

/-- Occurrence of the character sequence `pat` anywhere in a character list. -/
def containsCharSeq (pat : List Char) : List Char → Bool
  | [] => pat.isEmpty
  | c :: rest => pat.isPrefixOf (c :: rest) || containsCharSeq pat rest

/-- Python's substring test `pat in s`, on the underlying character lists
(kernel-computable, unlike the `String.Pos`-based primitives). -/
def containsSubstring (s pat : String) : Bool := containsCharSeq pat.data s.data

/-- `_run_gh_command` (lines 54-73): the stdout on success; `None` on a
`CalledProcessError` (whether or not the stderr mentions not-found/404), on a
`TimeoutExpired`, and on any other exception. -/
def run_gh_command : GhOutcome → Option String
  | .completed stdout => some stdout
  | .processError stderr =>
    if containsSubstring stderr "not found" || containsSubstring stderr "404" then none
    else none
  | .timedOut => none
  | .otherFailure _ => none

/-- `get_recent_commits` (lines 171-197): a caller of the client that treats a
missing or empty payload (`if not output`) as "no data".  The per-line JSON
decoding of a non-empty payload is abstracted as `parseJqLines`. -/
def get_recent_commits (outcome : GhOutcome) (parseJqLines : String → List Commit) :
    List Commit :=
  match run_gh_command outcome with
  | none => []
  | some output => if output = "" then [] else parseJqLines output

/-! ## GitHub repository watcher: `main` (lines 614-636) -/

/-- How the `monitor.run(...)` call inside `main` terminates:
normal completion (carrying the analyzed results), a `RuntimeError`, a
`KeyboardInterrupt`, or any other exception. -/
inductive GithubRunOutcome where
  | completed (results : List RepoResult)
  | runtimeError (msg : String)
  | interrupted
  | unexpectedError (msg : String)
deriving DecidableEq, Repr

/-- The process exit code of `main` in `github_repo_watcher.py`
(lines 616-636): `sys.exit(1)` on `RuntimeError` or an unexpected exception,
`sys.exit(0)` on `KeyboardInterrupt`, and implicit exit code 0 when `run`
returns normally — the analyzed results are never consulted. -/
def githubMainExitCode : GithubRunOutcome → Nat
  | .completed _ => 0
  | .runtimeError _ => 1
  | .interrupted => 0
  | .unexpectedError _ => 1

/-! ## Jira board watcher: data model (`jira_support_board_watcher.py`) -/

/-- A raw Jira issue as returned by `_search_jira`; only its key is needed by
the claims. -/
structure JiraIssue where
  key : String
deriving DecidableEq, Repr

/-- A Jira issue comment as consumed by `check_for_customer_comments`
(lines 584-606): the author's `emailAddress` (the empty string when the field
is absent, per `.get(..., '')`) and its `created` timestamp (see the module
comment for the `Option Nat` timestamp convention). -/
structure JiraComment where
  author_emailAddress : String
  created : Option Nat
deriving DecidableEq, Repr

/-- A Jira issue comment as consumed by the authorship-attribution step of
`get_items_by_comment_activity` (lines 519-527): the author's `accountId`
(the empty string when absent, per `.get('accountId', '')`). -/
structure IssueComment where
  author_accountId : String
deriving DecidableEq, Repr

/-- One analyzed item assembled by `get_items_by_comment_activity`
(lines 539-551). -/
structure ActivityItem where
  key : String
  summary : String
  status : String
  assignee : String
  created : String
  updated : String
  comment_count : Nat
  last_comment_date : Option String
  last_comment_author : Option String
  last_comment_by_team : Option Bool
  days_since_activity : Option Nat
deriving DecidableEq, Repr

/-- One entry of the `unacknowledged` list built in `generate_triage_report`
(lines 630-637). -/
structure UnacknowledgedEntry where
  issue : JiraIssue
  comments : List JiraComment
deriving DecidableEq, Repr

/-- The `TriageReport` dataclass (lines 28-38). -/
structure TriageReport where
  triage_items : List JiraIssue
  todo_items : List JiraIssue
  in_progress_items : List JiraIssue
  waiting_for_customer_items : List JiraIssue
  stale_items : List JiraIssue
  unacknowledged_comments : List UnacknowledgedEntry
  recently_closed : List JiraIssue
  items_by_comment_activity : List ActivityItem
deriving Repr

/-! ## Jira board watcher: remote query client (`_search_jira`,
lines 356-390) -/

/-- The decoded JSON body of a Jira search response.  `issues = none` models a
JSON object without an `issues` key, defaulted to `[]` by
`data.get('issues', [])`. -/
structure JiraSearchBody where
  issues : Option (List JiraIssue)
deriving DecidableEq, Repr

/-- Outcome of the `requests.get` call inside `_search_jira`:
either an HTTP response with a status code and a body (`body = none` models a
non-JSON body, on which `response.json()` raises the
`requests.exceptions.JSONDecodeError` subclass of `RequestException`), or a
transport-level `RequestException` (connection error, timeout,
authentication-handshake failure). -/
inductive JiraFetchOutcome where
  | response (status : Nat) (body : Option JiraSearchBody)
  | transportError (msg : String)
deriving DecidableEq, Repr

/-- `_search_jira` (lines 356-390): `raise_for_status` raises an `HTTPError`
exactly for the 4xx/5xx statuses (`400 ≤ status < 600`), and the single
`except RequestException` clause turns every transport error, HTTP error and
JSON-decoding error into an empty issue list; any other status proceeds to
body decoding. -/
def search_jira : JiraFetchOutcome → List JiraIssue
  | .transportError _ => []
  | .response status body =>
    if 400 ≤ status ∧ status < 600 then []
    else
      match body with
      | none => []
      | some data => data.issues.getD []

/-! ## Jira board watcher: comment-activity sort
(`get_items_by_comment_activity`, lines 553-559) -/

/-- The `sort_key` closure (lines 554-557): `('0', '')` for items with no
last comment, `('1', date)` otherwise; tuples compare lexicographically.  The
group tags `'0'`/`'1'` are modelled by the naturals `0`/`1`, which carry the
same order. -/
def sort_key (item : ActivityItem) : Nat × String :=
  match item.last_comment_date with
  | none => (0, "")
  | some d => (1, d)

/-- Pulled-back lexicographic key order used by
`items_with_analysis.sort(key=sort_key)` (line 559). -/
def activityOrder (a b : ActivityItem) : Prop :=
  (sort_key a).1 < (sort_key b).1 ∨
    ((sort_key a).1 = (sort_key b).1 ∧ (sort_key a).2 ≤ (sort_key b).2)

instance : DecidableRel activityOrder := fun a b =>
  inferInstanceAs (Decidable ((sort_key a).1 < (sort_key b).1 ∨
    ((sort_key a).1 = (sort_key b).1 ∧ (sort_key a).2 ≤ (sort_key b).2)))

instance : IsTotal ActivityItem activityOrder := by
  constructor
  intro a b
  rcases lt_trichotomy (sort_key a).1 (sort_key b).1 with h | h | h
  · exact Or.inl (Or.inl h)
  · rcases le_total (sort_key a).2 (sort_key b).2 with h2 | h2
    · exact Or.inl (Or.inr ⟨h, h2⟩)
    · exact Or.inr (Or.inr ⟨h.symm, h2⟩)
  · exact Or.inr (Or.inl h)

instance : IsTrans ActivityItem activityOrder := by
  constructor
  intro a b c hab hbc
  rcases hab with h1 | ⟨h1, h1'⟩
  · rcases hbc with h2 | ⟨h2, h2'⟩
    · exact Or.inl (lt_trans h1 h2)
    · exact Or.inl (h2 ▸ h1)
  · rcases hbc with h2 | ⟨h2, h2'⟩
    · exact Or.inl (h1 ▸ h2)
    · exact Or.inr ⟨h1.trans h2, le_trans h1' h2'⟩

/-- The sort at line 559: Python's `list.sort` is a stable ascending sort,
embedded as stable insertion sort over `activityOrder`. -/
def sortItemsByCommentActivity (items : List ActivityItem) : List ActivityItem :=
  List.insertionSort activityOrder items

/-! ## Jira board watcher: unacknowledged customer comments
(`check_for_customer_comments`, lines 563-610) -/

/-- The internal-domain test `email.endswith('@cirium.com')`, on the
underlying character lists (kernel-computable, unlike `String.endsWith`). -/
def isInternalEmail (email : String) : Bool := "@cirium.com".data.isSuffixOf email.data

/-- The inner reply loop (lines 594-601): scan all comments in order, parse
each reply's `created` (raising `ValueError` on a missing/unparseable
timestamp), and stop at the first internal-domain reply strictly later than
`t`. -/
def findInternalReplyAfter (t : Nat) : List JiraComment → Except String Bool
  | [] => .ok false
  | reply :: rest =>
    match reply.created with
    | none => .error "ValueError: Invalid isoformat string"
    | some tr =>
      if isInternalEmail reply.author_emailAddress && decide (t < tr) then .ok true
      else findInternalReplyAfter t rest

/-- The outer comment loop (lines 587-604): for each comment with a non-empty,
non-internal author email, parse its `created` (raising `ValueError` on a
missing/unparseable timestamp), run the reply scan, and collect the comment if
no later internal reply was found.  An uncaught `ValueError` aborts the whole
scan (the function's only except clause catches `RequestException`). -/
def collectUnacknowledged (allComments : List JiraComment) :
    List JiraComment → Except String (List JiraComment)
  | [] => .ok []
  | c :: rest =>
    if c.author_emailAddress ≠ "" && !isInternalEmail c.author_emailAddress then
      match c.created with
      | none => .error "ValueError: Invalid isoformat string"
      | some t =>
        match findInternalReplyAfter t allComments with
        | .error e => .error e
        | .ok hasReply =>
          match collectUnacknowledged allComments rest with
          | .error e => .error e
          | .ok acc => .ok (if hasReply then acc else c :: acc)
    else collectUnacknowledged allComments rest

/-- `check_for_customer_comments` restricted to its pure core (lines 586-606):
the comment list of the fetched issue is scanned for unacknowledged external
comments. -/
def check_for_customer_comments (comments : List JiraComment) :
    Except String (List JiraComment) :=
  collectUnacknowledged comments comments

/-! ## Jira board watcher: team-membership attribution
(`_is_team_member`, lines 343-354, and lines 519-527 of
`get_items_by_comment_activity`) -/

/-- The memoized team-membership set for a run.  `_get_team_members`
(lines 128-201) caches one value per run; every failure path
(`except RequestException`, missing org id, missing team id) stores and
returns the empty list, so the cache holds either the fetched account-id list
or `[]`. -/
def teamMembersResolved (fetch : Except String (List String)) : List String :=
  match fetch with
  | .ok members => members
  | .error _ => []

/-- `_is_team_member` (lines 343-354): membership test against the memoized
list. -/
def is_team_member (fetch : Except String (List String)) (account_id : String) : Bool :=
  (teamMembersResolved fetch).contains account_id

/-- The `last_comment_by_team` derivation (lines 514-527): `None` when there
are no comments; for the last comment, `None` when its author has no
account id, otherwise the boolean result of `_is_team_member`. -/
def last_comment_by_team (fetch : Except String (List String))
    (comments : List IssueComment) : Option Bool :=
  match comments.getLast? with
  | none => none
  | some lastComment =>
    if lastComment.author_accountId ≠ "" then
      some (is_team_member fetch lastComment.author_accountId)
    else none

/-! ## Jira board watcher: `main` exit code (lines 899-904) -/

/-- The exit code returned by `main` in `jira_support_board_watcher.py`
(lines 899-904): 1 when any of `stale_items`, `unacknowledged_comments`,
`triage_items` is non-empty (Python truthiness of the lists), else 0. -/
def jiraMainExitCode (report : TriageReport) : Nat :=
  if !report.stale_items.isEmpty || !report.unacknowledged_comments.isEmpty
      || !report.triage_items.isEmpty then 1
  else 0

/-! ## GitHub repository watcher: output-file derivation (`run`,
lines 508-519) -/

/-- Python's `s.replace('.txt', '.json')` (line 515), operating on the
character list of the path: every non-overlapping occurrence of `.txt` is
rewritten to `.json`, scanning left to right. -/
def replaceTxtWithJson (l : List Char) : List Char :=
  if l.take 4 = ['.', 't', 'x', 't'] then
    '.' :: 'j' :: 's' :: 'o' :: 'n' :: replaceTxtWithJson (l.drop 4)
  else
    match l with
    | [] => []
    | c :: rest => c :: replaceTxtWithJson rest
termination_by l.length
decreasing_by
· have h4 : l.length ≥ 4 := by
    rename_i h
    have := congrArg List.length h
    simp [List.length_take] at this
    omega
  simp
  omega
· simp

/-- Whether the character list contains the substring `.txt`. -/
def containsTxt : List Char → Bool
  | [] => false
  | c :: rest => (decide (c = '.') && decide (rest.take 3 = ['t', 'x', 't'])) || containsTxt rest

/-- The JSON sibling path computed at line 515:
`json_file = output_file.replace('.txt', '.json')`. -/
def jsonFilePath (output_file : String) : String :=
  ⟨replaceTxtWithJson output_file.data⟩

/-- The sequence of file writes performed by `run` when an output file is
requested (lines 508-517): first the narrative report to `output_file`, then
the JSON dump to `jsonFilePath output_file`. -/
def runFileWrites (output_file narrativeReport jsonData : String) :
    List (String × String) :=
  [(output_file, narrativeReport), (jsonFilePath output_file, jsonData)]

/-- The final contents a path holds after a sequence of writes is applied in
order (each write truncates and replaces the file). -/
def finalContents (writes : List (String × String)) (path : String) : Option String :=
  writes.foldl (fun acc w => if w.1 = path then some w.2 else acc) none

/-! ## Concrete values used to instantiate the claims -/

/-- A stubbed analysis function that always raises. -/
def crashingAnalyze : String → Except String RepoResult := fun _ => .error "boom"

/-- A repository result with neither activity nor vulnerabilities. -/
def plainResult (repo : String) : RepoResult :=
  { repo := repo
    recent_commits := []
    recent_prs := []
    dependabot_alerts := []
    has_activity := false
    has_vulnerabilities := false }

/-- A stubbed analysis function that never raises. -/
def okAnalyze : String → Except String RepoResult := fun repo => .ok (plainResult repo)

/-- A stubbed analysis function that raises on the repository `"bad"` only. -/
def failsOnBadAnalyze : String → Except String RepoResult := fun repo =>
  if repo = "bad" then .error "kaput" else .ok (plainResult repo)

/-- A result record carrying an `error` key together with `has_activity = true`;
the shape the dispatcher never produces but the `EntityResult` type allows. -/
def mixedErrorResult : RepoResult :=
  { repo := "x"
    recent_commits := []
    recent_prs := []
    dependabot_alerts := []
    has_activity := true
    has_vulnerabilities := false
    error := some "boom" }

/-- A result for a repository that is both active and vulnerable. -/
def attentionResult : RepoResult :=
  { repo := "x"
    recent_commits := [⟨"abc1234", "fix build", "dev", "2025-01-01T00:00:00Z"⟩]
    recent_prs := []
    dependabot_alerts := [⟨1, "high", "pkg", "prototype pollution", "N/A", "u", "2025-01-01"⟩]
    has_activity := true
    has_vulnerabilities := true }

/-- An issue comment whose author record carries no email address
(`.get('emailAddress', '')` yields the empty string). -/
def emptyEmailComment : JiraComment := ⟨"", some 0⟩

/-- An external comment whose `created` field is missing or empty. -/
def missingTimestampComment : JiraComment := ⟨"eve@example.com", none⟩

/-- An analyzed item without comments. -/
def itemNoComments (k : String) : ActivityItem :=
  { key := k
    summary := "s"
    status := "In Progress"
    assignee := "dev"
    created := "2024-01-01"
    updated := "2024-01-02"
    comment_count := 0
    last_comment_date := none
    last_comment_author := none
    last_comment_by_team := none
    days_since_activity := some 3 }

/-- An analyzed item whose last comment is dated `d`. -/
def itemCommented (k d : String) : ActivityItem :=
  { key := k
    summary := "s"
    status := "In Progress"
    assignee := "dev"
    created := "2024-01-01"
    updated := "2024-01-02"
    comment_count := 2
    last_comment_date := some d
    last_comment_author := some "bob"
    last_comment_by_team := some false
    days_since_activity := some 1 }

/-- A triage report whose only flagged category is one stale item. -/
def staleOnlyReport : TriageReport :=
  { triage_items := []
    todo_items := []
    in_progress_items := []
    waiting_for_customer_items := []
    stale_items := [⟨"CDPSUPPORT-7"⟩]
    unacknowledged_comments := []
    recently_closed := []
    items_by_comment_activity := [] }

/-! # Theorems -/

/-! ## C1: concurrent vs sequential dispatcher -/

/-- Helper: a successful sequential run returns exactly the per-repository
analysis values in input order. -/
theorem runSequential_ok_map (analyze : String → Except String RepoResult)
    (repos : List String) (rs : List RepoResult)
    (h : runSequential analyze repos = .ok rs) :
    rs = repos.map (futureResult analyze) := by
  induction repos generalizing rs with
  | nil =>
    simp only [runSequential] at h
    cases h
    rfl
  | cons repo rest ih =>
    simp only [runSequential] at h
    cases ha : analyze repo with
    | error msg => rw [ha] at h; cases h
    | ok r =>
      rw [ha] at h
      cases hr : runSequential analyze rest with
      | error msg => rw [hr] at h; cases h
      | ok rs2 =>
        rw [hr] at h
        cases h
        simp [futureResult, ha, ih rs2 hr]

/-- C1 (counterexample): with a single entity whose analysis raises, the
sequential branch of `run` aborts with the exception and yields no result set
at all, while `analyze_repos_parallel` yields the synthetic failed result, so
the two modes do not produce identical `EntityResult` sets when the analysis
function raises. -/
theorem c1_counterexample :
    (runSequential crashingAnalyze ["repo1"]).isOk = false ∧
    analyze_repos_parallel crashingAnalyze ["repo1"] = [syntheticFailure "repo1" "boom"] :=
  ⟨rfl, rfl⟩

/-- C1 (amended): for every list of entities, every completion order the
thread pool may produce, and any fixed stubbed analysis function, whenever the
sequential branch of `run` completes without an exception, it yields exactly
the same multiset of `EntityResult`s as `analyze_repos_parallel` (the two
differ only in ordering/timing). -/
theorem c1_parallel_sequential_same_results
    (analyze : String → Except String RepoResult)
    (repos completionOrder : List String) (rs : List RepoResult)
    (hperm : completionOrder.Perm repos)
    (hseq : runSequential analyze repos = .ok rs) :
    (analyze_repos_parallel analyze completionOrder : Multiset RepoResult) =
      (rs : Multiset RepoResult) := by
  have h1 : (analyze_repos_parallel analyze completionOrder).Perm
      (completionOrder.map (futureResult analyze)) :=
    List.perm_insertionSort _ _
  have h2 : (completionOrder.map (futureResult analyze)).Perm
      (repos.map (futureResult analyze)) :=
    hperm.map _
  rw [runSequential_ok_map analyze repos rs hseq]
  exact Multiset.coe_eq_coe.mpr (h1.trans h2)

/-- C1 (witness): the amended theorem applied to two repositories analyzed
with a non-raising stub, with the completion order reversing the input
order. -/
theorem c1_witness :
    (analyze_repos_parallel okAnalyze ["a", "b"] : Multiset RepoResult) =
      ([plainResult "b", plainResult "a"] : Multiset RepoResult) :=
  c1_parallel_sequential_same_results okAnalyze ["b", "a"] ["a", "b"]
    [plainResult "b", plainResult "a"] (by decide) rfl

/-! ## C2: the five-bucket classification of `generate_report` -/

/-- Helper: a result whose `error` key, when present, comes with both activity
flags false (the only shape the dispatcher produces) lies in exactly one of
the five buckets. -/
theorem bucket_count_one (r : RepoResult)
    (hsynth : r.error.isSome = true → r.has_activity = false ∧ r.has_vulnerabilities = false) :
    [r.has_activity && r.has_vulnerabilities,
     r.has_vulnerabilities && !r.has_activity,
     r.has_activity && !r.has_vulnerabilities,
     !r.has_activity && !r.has_vulnerabilities && r.error.isNone,
     r.error.isSome].count true = 1 := by
  cases herr : r.error with
  | none =>
    cases ha : r.has_activity <;> cases hv : r.has_vulnerabilities <;>
      simp [ha, hv, herr, List.count_cons]
  | some msg =>
    have hflags := hsynth (by simp [herr])
    simp [herr, hflags.1, hflags.2, List.count_cons]

/-- Helper: over a list of dispatcher-shaped results the five bucket sizes sum
to the number of results. -/
theorem bucket_lengths_sum (results : List RepoResult)
    (hsynth : ∀ r ∈ results, r.error.isSome = true →
      r.has_activity = false ∧ r.has_vulnerabilities = false) :
    (high_priority results).length + (vulnerable_only results).length +
      (active_clean results).length + (quiet_repos results).length +
      (errored_results results).length = results.length := by
  induction results with
  | nil => rfl
  | cons a l ih =>
    have ha := hsynth a (List.mem_cons_self a l)
    have hl : ∀ r ∈ l, r.error.isSome = true →
        r.has_activity = false ∧ r.has_vulnerabilities = false :=
      fun r hr => hsynth r (List.mem_cons_of_mem a hr)
    have IH := ih hl
    simp only [high_priority, vulnerable_only, active_clean, quiet_repos, errored_results,
      List.filter_cons] at IH ⊢
    cases herr : a.error with
    | none =>
      cases hact : a.has_activity <;> cases hvul : a.has_vulnerabilities <;>
        simp [herr, hact, hvul] <;> omega
    | some msg =>
      have hflags := ha (by simp [herr])
      simp [herr, hflags.1, hflags.2]
      omega

/-- C2 (counterexample): an `EntityResult` carrying an `error` key together
with `has_activity = true` is placed both in the active-only bucket and in the
errored bucket, so over arbitrary `EntityResult` lists the five buckets are
not a disjoint partition: this one-element list is counted twice. -/
theorem c2_counterexample :
    active_clean [mixedErrorResult] = [mixedErrorResult] ∧
    errored_results [mixedErrorResult] = [mixedErrorResult] ∧
    (high_priority [mixedErrorResult]).length + (vulnerable_only [mixedErrorResult]).length +
      (active_clean [mixedErrorResult]).length + (quiet_repos [mixedErrorResult]).length +
      (errored_results [mixedErrorResult]).length = 2 := by
  refine ⟨rfl, rfl, rfl⟩

/-- C2 (amended): for every list of `EntityResult`s in which a present `error`
key comes with both derived flags false — the only shape `analyze_repos_parallel`
produces for failed entities — the classification into
{active+vulnerable, vulnerable-only, active-only, quiet, errored} is a
disjoint and exhaustive partition: every result satisfies exactly one of the
five discriminants, and the bucket sizes sum to the input length, so nothing
is dropped or double-counted. -/
theorem c2_partition (results : List RepoResult)
    (hsynth : ∀ r ∈ results, r.error.isSome = true →
      r.has_activity = false ∧ r.has_vulnerabilities = false) :
    (∀ r ∈ results,
      [r.has_activity && r.has_vulnerabilities,
       r.has_vulnerabilities && !r.has_activity,
       r.has_activity && !r.has_vulnerabilities,
       !r.has_activity && !r.has_vulnerabilities && r.error.isNone,
       r.error.isSome].count true = 1) ∧
    (high_priority results).length + (vulnerable_only results).length +
      (active_clean results).length + (quiet_repos results).length +
      (errored_results results).length = results.length :=
  ⟨fun r hr => bucket_count_one r (hsynth r hr), bucket_lengths_sum results hsynth⟩

/-- C2 (witness): the amended partition theorem applied to a concrete batch
holding one repository of each reachable kind, including a synthetic failed
result. -/
theorem c2_witness :
    (∀ r ∈ [plainResult "a", attentionResult, syntheticFailure "bad" "kaput"],
      [r.has_activity && r.has_vulnerabilities,
       r.has_vulnerabilities && !r.has_activity,
       r.has_activity && !r.has_vulnerabilities,
       !r.has_activity && !r.has_vulnerabilities && r.error.isNone,
       r.error.isSome].count true = 1) ∧
    (high_priority [plainResult "a", attentionResult, syntheticFailure "bad" "kaput"]).length +
      (vulnerable_only [plainResult "a", attentionResult, syntheticFailure "bad" "kaput"]).length +
      (active_clean [plainResult "a", attentionResult, syntheticFailure "bad" "kaput"]).length +
      (quiet_repos [plainResult "a", attentionResult, syntheticFailure "bad" "kaput"]).length +
      (errored_results [plainResult "a", attentionResult, syntheticFailure "bad" "kaput"]).length =
      [plainResult "a", attentionResult, syntheticFailure "bad" "kaput"].length :=
  c2_partition [plainResult "a", attentionResult, syntheticFailure "bad" "kaput"] (by decide)

/-! ## C3: per-entity failure isolation in the concurrent dispatcher -/

/-- C3: in `analyze_repos_parallel`, for every entity list, every completion
order, and any analysis function, a failing entity is represented by the
synthetic failed result (all three lists empty, `error` holding the exception
message), and the batch is that synthetic result plus exactly the batch that
would have been produced had the failing entity been absent. -/
theorem c3_failure_isolation
    (analyze : String → Except String RepoResult)
    (repos completionOrder : List String) (failingRepo msg : String)
    (hperm : completionOrder.Perm repos)
    (hmem : failingRepo ∈ repos)
    (hfail : analyze failingRepo = .error msg) :
    syntheticFailure failingRepo msg ∈ analyze_repos_parallel analyze completionOrder ∧
    (syntheticFailure failingRepo msg).repo = failingRepo ∧
    (syntheticFailure failingRepo msg).recent_commits = [] ∧
    (syntheticFailure failingRepo msg).recent_prs = [] ∧
    (syntheticFailure failingRepo msg).dependabot_alerts = [] ∧
    (syntheticFailure failingRepo msg).error = some msg ∧
    (analyze_repos_parallel analyze completionOrder : Multiset RepoResult) =
      syntheticFailure failingRepo msg ::ₘ
        (analyze_repos_parallel analyze (repos.erase failingRepo) : Multiset RepoResult) := by
  have hres : futureResult analyze failingRepo = syntheticFailure failingRepo msg := by
    simp [futureResult, hfail]
  have hmemOrder : failingRepo ∈ completionOrder := hperm.mem_iff.mpr hmem
  refine ⟨?_, rfl, rfl, rfl, rfl, rfl, ?_⟩
  · rw [analyze_repos_parallel, List.mem_insertionSort]
    exact hres ▸ List.mem_map_of_mem (futureResult analyze) hmemOrder
  · have h1 : (analyze_repos_parallel analyze completionOrder).Perm
        (repos.map (futureResult analyze)) :=
      (List.perm_insertionSort _ _).trans (hperm.map _)
    have h2 : repos.Perm (failingRepo :: repos.erase failingRepo) :=
      List.perm_cons_erase hmem
    have h3 : (analyze_repos_parallel analyze (repos.erase failingRepo)).Perm
        ((repos.erase failingRepo).map (futureResult analyze)) :=
      List.perm_insertionSort _ _
    have h4 : (analyze_repos_parallel analyze completionOrder).Perm
        (syntheticFailure failingRepo msg ::
          (repos.erase failingRepo).map (futureResult analyze)) := by
      refine h1.trans ?_
      have := h2.map (futureResult analyze)
      rw [List.map_cons, hres] at this
      exact this
    rw [Multiset.cons_coe]
    exact Multiset.coe_eq_coe.mpr (h4.trans (List.Perm.cons _ h3.symm))

/-- C3 (witness): the isolation theorem applied to the concrete batch
`["a", "bad"]` with an analysis stub that raises exactly on `"bad"`, with a
completion order in which the failing entity finishes first. -/
theorem c3_witness :
    syntheticFailure "bad" "kaput" ∈ analyze_repos_parallel failsOnBadAnalyze ["bad", "a"] ∧
    (syntheticFailure "bad" "kaput").repo = "bad" ∧
    (syntheticFailure "bad" "kaput").recent_commits = [] ∧
    (syntheticFailure "bad" "kaput").recent_prs = [] ∧
    (syntheticFailure "bad" "kaput").dependabot_alerts = [] ∧
    (syntheticFailure "bad" "kaput").error = some "kaput" ∧
    (analyze_repos_parallel failsOnBadAnalyze ["bad", "a"] : Multiset RepoResult) =
      syntheticFailure "bad" "kaput" ::ₘ
        (analyze_repos_parallel failsOnBadAnalyze (["a", "bad"].erase "bad") : Multiset RepoResult) :=
  c3_failure_isolation failsOnBadAnalyze ["a", "bad"] ["bad", "a"] "bad" "kaput"
    (by decide) (by decide) rfl

/-! ## C4: process exit codes -/

/-- C4 (counterexample): a run of the GitHub watcher that completes normally
with a batch containing a vulnerable-and-active repository still exits with
code 0 — `main` in `github_repo_watcher.py` never inspects the results when
choosing an exit code, so a non-empty vulnerable/active category does not make
the exit code non-zero as the claim requires. -/
theorem c4_counterexample :
    attentionResult.has_activity = true ∧
    attentionResult.has_vulnerabilities = true ∧
    githubMainExitCode (.completed [attentionResult]) = 0 :=
  ⟨rfl, rfl, rfl⟩

/-- C4 (amended): the Jira watcher's exit code is non-zero exactly when one of
its attention-requiring categories — stale items, unacknowledged customer
comments, or triage-status items — is non-empty; the GitHub watcher's exit
code on a normally completed run is always zero, regardless of vulnerable or
active entities in its results. -/
theorem c4_exit_codes :
    ∀ (report : TriageReport) (results : List RepoResult),
      (jiraMainExitCode report ≠ 0 ↔
        (report.stale_items ≠ [] ∨ report.unacknowledged_comments ≠ [] ∨
          report.triage_items ≠ [])) ∧
      githubMainExitCode (.completed results) = 0 := by
  intro report results
  refine ⟨?_, rfl⟩
  constructor
  · intro h
    by_contra hc
    push_neg at hc
    obtain ⟨h1, h2, h3⟩ := hc
    simp [jiraMainExitCode, h1, h2, h3] at h
  · intro h
    rcases h with h | h | h <;>
      simp [jiraMainExitCode, List.isEmpty_iff, h]


/-! ## C5: the comment-activity sort -/

/-- Helper: the sort key of an item without a last comment. -/
theorem sort_key_of_none {a : ActivityItem} (h : a.last_comment_date = none) :
    sort_key a = (0, "") := by
  simp [sort_key, h]

/-- Helper: the sort key of an item with last-comment date `d`. -/
theorem sort_key_of_some {a : ActivityItem} {d : String} (h : a.last_comment_date = some d) :
    sort_key a = (1, d) := by
  simp [sort_key, h]

/-- C5: for every list of analyzed issue items, the sort of
`get_items_by_comment_activity` (a) loses and duplicates nothing,
(b) places every item without a last comment before every item that has one
(the no-comment items form a prefix of the output), (c) orders the items that
have comments ascending by their last-comment timestamp string, and (d) keeps
the no-comment items in their input order (stability). -/
theorem c5_comment_activity_sort (items : List ActivityItem) :
    (sortItemsByCommentActivity items).Perm items ∧
    (∀ (i j : Nat) (hi : i < (sortItemsByCommentActivity items).length)
        (hj : j < (sortItemsByCommentActivity items).length), i < j →
        ((sortItemsByCommentActivity items).get ⟨j, hj⟩).last_comment_date = none →
        ((sortItemsByCommentActivity items).get ⟨i, hi⟩).last_comment_date = none) ∧
    (sortItemsByCommentActivity items).Pairwise
      (fun a b => ∀ da db, a.last_comment_date = some da →
        b.last_comment_date = some db → da ≤ db) ∧
    (sortItemsByCommentActivity items).filter (fun it => it.last_comment_date.isNone) =
      items.filter (fun it => it.last_comment_date.isNone) := by
  have hperm : (sortItemsByCommentActivity items).Perm items :=
    List.perm_insertionSort activityOrder items
  have hsorted : (sortItemsByCommentActivity items).Pairwise activityOrder :=
    List.sorted_insertionSort activityOrder items
  refine ⟨hperm, ?_, ?_, ?_⟩
  · intro i j hi hj hij hjnone
    have hrel : activityOrder ((sortItemsByCommentActivity items).get ⟨i, hi⟩)
        ((sortItemsByCommentActivity items).get ⟨j, hj⟩) :=
      List.pairwise_iff_get.mp hsorted ⟨i, hi⟩ ⟨j, hj⟩ hij
    cases hd : ((sortItemsByCommentActivity items).get ⟨i, hi⟩).last_comment_date with
    | none => rfl
    | some d =>
      exfalso
      rw [activityOrder, sort_key_of_some hd, sort_key_of_none hjnone] at hrel
      rcases hrel with h | ⟨h, _⟩
      · simp at h
      · simp at h
  · refine hsorted.imp ?_
    intro a b hab da db hda hdb
    rw [activityOrder, sort_key_of_some hda, sort_key_of_some hdb] at hab
    rcases hab with h | ⟨_, h2⟩
    · simp at h
    · exact h2
  · have hpw : (items.filter (fun it => it.last_comment_date.isNone)).Pairwise activityOrder := by
      apply List.pairwise_of_forall_mem_list
      intro a ha b hb
      have hda : a.last_comment_date = none :=
        Option.isNone_iff_eq_none.mp (List.mem_filter.mp ha).2
      have hdb : b.last_comment_date = none :=
        Option.isNone_iff_eq_none.mp (List.mem_filter.mp hb).2
      exact Or.inr ⟨by rw [sort_key_of_none hda, sort_key_of_none hdb],
        by rw [sort_key_of_none hda, sort_key_of_none hdb]⟩
    have hsub : List.Sublist (items.filter (fun it => it.last_comment_date.isNone))
        (sortItemsByCommentActivity items) :=
      List.sublist_insertionSort hpw (List.filter_sublist items)
    have hidem : (items.filter (fun it => it.last_comment_date.isNone)).filter
        (fun it => it.last_comment_date.isNone) =
        items.filter (fun it => it.last_comment_date.isNone) :=
      List.filter_eq_self.mpr (fun a ha => (List.mem_filter.mp ha).2)
    have hsubf : List.Sublist (items.filter (fun it => it.last_comment_date.isNone))
        ((sortItemsByCommentActivity items).filter (fun it => it.last_comment_date.isNone)) :=
      hidem ▸ hsub.filter (fun it => it.last_comment_date.isNone)
    have hlen : ((sortItemsByCommentActivity items).filter
        (fun it => it.last_comment_date.isNone)).length =
        (items.filter (fun it => it.last_comment_date.isNone)).length :=
      (hperm.filter _).length_eq
    exact (hsubf.eq_of_length hlen.symm).symm

/-! ## C6: unacknowledged external comments -/

/-- Helper: when every comment carries a parseable timestamp, the reply scan
never raises and reports exactly whether some internal-domain comment is
strictly later than `t`. -/
theorem findInternalReplyAfter_spec (t : Nat) (l : List JiraComment)
    (hparse : ∀ c ∈ l, c.created.isSome = true) :
    ∃ b, findInternalReplyAfter t l = .ok b ∧
      (b = true ↔ ∃ r ∈ l, isInternalEmail r.author_emailAddress = true ∧
        ∃ tr, r.created = some tr ∧ t < tr) := by
  induction l with
  | nil => exact ⟨false, rfl, by simp⟩
  | cons reply rest ih =>
    have hr := hparse reply (List.mem_cons_self reply rest)
    obtain ⟨b, hb, hiff⟩ := ih (fun c hc => hparse c (List.mem_cons_of_mem reply hc))
    cases hc : reply.created with
    | none => rw [hc] at hr; simp at hr
    | some tr =>
      by_cases hcond : (isInternalEmail reply.author_emailAddress && decide (t < tr)) = true
      · refine ⟨true, ?_, ?_⟩
        · simp only [findInternalReplyAfter, hc]
          rw [if_pos hcond]
        · have h1 : isInternalEmail reply.author_emailAddress = true :=
            (Bool.and_eq_true_iff.mp hcond).1
          have h2 : t < tr := of_decide_eq_true (Bool.and_eq_true_iff.mp hcond).2
          simp only [true_iff]
          exact ⟨reply, List.mem_cons_self reply rest, h1, tr, hc, h2⟩
      · refine ⟨b, ?_, ?_⟩
        · simp only [findInternalReplyAfter, hc]
          rw [if_neg hcond]
          exact hb
        · rw [hiff]
          constructor
          · rintro ⟨r, hrmem, hint, tr2, hcr, hlt⟩
            exact ⟨r, List.mem_cons_of_mem reply hrmem, hint, tr2, hcr, hlt⟩
          · rintro ⟨r, hrmem, hint, tr2, hcr, hlt⟩
            rcases List.mem_cons.mp hrmem with heq | hmem2
            · exfalso
              subst heq
              rw [hc] at hcr
              cases hcr
              exact hcond (by simp [hint, hlt])
            · exact ⟨r, hmem2, hint, tr2, hcr, hlt⟩

/-- Helper: when every comment carries a parseable timestamp, the outer scan
never raises and collects exactly the external comments that lack a strictly
later internal-domain comment. -/
theorem collectUnacknowledged_spec (allComments : List JiraComment)
    (hall : ∀ c ∈ allComments, c.created.isSome = true) (l : List JiraComment)
    (hl : ∀ c ∈ l, c.created.isSome = true) :
    ∃ u, collectUnacknowledged allComments l = .ok u ∧
      ∀ c, c ∈ u ↔ (c ∈ l ∧ c.author_emailAddress ≠ "" ∧
        isInternalEmail c.author_emailAddress = false ∧
        ∀ tc, c.created = some tc →
          ¬ ∃ r ∈ allComments, isInternalEmail r.author_emailAddress = true ∧
            ∃ tr, r.created = some tr ∧ tc < tr) := by
  induction l with
  | nil => exact ⟨[], rfl, by simp⟩
  | cons c0 rest ih =>
    obtain ⟨us, hus, hiff⟩ := ih (fun c hc => hl c (List.mem_cons_of_mem c0 hc))
    have hc0 := hl c0 (List.mem_cons_self c0 rest)
    by_cases hext : (decide (c0.author_emailAddress ≠ "") &&
        !isInternalEmail c0.author_emailAddress) = true
    · have hne : c0.author_emailAddress ≠ "" :=
        of_decide_eq_true (Bool.and_eq_true_iff.mp hext).1
      have hnotint : isInternalEmail c0.author_emailAddress = false := by
        have := (Bool.and_eq_true_iff.mp hext).2
        simpa using this
      cases hcr : c0.created with
      | none => rw [hcr] at hc0; simp at hc0
      | some t =>
        obtain ⟨b, hb, hbiff⟩ := findInternalReplyAfter_spec t allComments hall
        cases b with
        | true =>
          refine ⟨us, ?_, ?_⟩
          · simp only [collectUnacknowledged, hcr, hb, hus]
            rw [if_pos hext]
            simp
          · intro c
            rw [hiff c]
            constructor
            · rintro ⟨hmem, h2, h3, h4⟩
              exact ⟨List.mem_cons_of_mem c0 hmem, h2, h3, h4⟩
            · rintro ⟨hmem, h2, h3, h4⟩
              rcases List.mem_cons.mp hmem with heq | hmem2
              · exfalso
                subst heq
                exact h4 t hcr (hbiff.mp rfl)
              · exact ⟨hmem2, h2, h3, h4⟩
        | false =>
          refine ⟨c0 :: us, ?_, ?_⟩
          · simp only [collectUnacknowledged, hcr, hb, hus]
            rw [if_pos hext]
            simp
          · intro c
            constructor
            · intro hcu
              rcases List.mem_cons.mp hcu with heq | hmem2
              · subst heq
                refine ⟨List.mem_cons_self _ _, hne, hnotint, ?_⟩
                intro tc htc hexists
                rw [hcr] at htc
                cases htc
                exact absurd (hbiff.mpr hexists) (by decide)
              · have hres := (hiff c).mp hmem2
                exact ⟨List.mem_cons_of_mem c0 hres.1, hres.2.1, hres.2.2.1, hres.2.2.2⟩
            · rintro ⟨hmem, h2, h3, h4⟩
              rcases List.mem_cons.mp hmem with heq | hmem2
              · subst heq
                exact List.mem_cons_self _ _
              · exact List.mem_cons_of_mem c0 ((hiff c).mpr ⟨hmem2, h2, h3, h4⟩)
    · refine ⟨us, ?_, ?_⟩
      · simp only [collectUnacknowledged]
        rw [if_neg hext]
        exact hus
      · intro c
        rw [hiff c]
        constructor
        · rintro ⟨hmem, h2, h3, h4⟩
          exact ⟨List.mem_cons_of_mem c0 hmem, h2, h3, h4⟩
        · rintro ⟨hmem, h2, h3, h4⟩
          rcases List.mem_cons.mp hmem with heq | hmem2
          · exfalso
            subst heq
            exact hext (by simp [h2, h3])
          · exact ⟨hmem2, h2, h3, h4⟩

/-- C6 (amended): for every issue comment list in which all comments carry a
parseable created timestamp, `check_for_customer_comments` completes without
raising, and a comment is returned as unacknowledged if and only if its author
email is non-empty and does not end in `@cirium.com`, and no comment with a
strictly later timestamp was authored by an internal-domain author.  (The
claim as stated omits the non-empty-email requirement: a comment whose author
record carries no email address is never flagged.) -/
theorem c6_unacknowledged_iff (comments : List JiraComment)
    (hparse : ∀ c ∈ comments, c.created.isSome = true) :
    ∃ u, check_for_customer_comments comments = .ok u ∧
      ∀ c, c ∈ u ↔ (c ∈ comments ∧ c.author_emailAddress ≠ "" ∧
        isInternalEmail c.author_emailAddress = false ∧
        ∀ tc, c.created = some tc →
          ¬ ∃ r ∈ comments, isInternalEmail r.author_emailAddress = true ∧
            ∃ tr, r.created = some tr ∧ tc < tr) :=
  collectUnacknowledged_spec comments hparse comments hparse

/-- C6 (counterexample): a comment whose author email is the empty string does
not end in `@cirium.com` and has no later internal reply, yet
`check_for_customer_comments` returns it in no unacknowledged list — the
claimed iff fails at this input because the code additionally requires a
non-empty author email. -/
theorem c6_counterexample :
    isInternalEmail emptyEmailComment.author_emailAddress = false ∧
    emptyEmailComment.created = some 0 ∧
    (∀ r ∈ [emptyEmailComment], isInternalEmail r.author_emailAddress = false) ∧
    check_for_customer_comments [emptyEmailComment] = .ok [] := by
  refine ⟨by decide, rfl, by decide, rfl⟩

/-- C6 (witness): the amended theorem applied to a three-comment issue: an
external comment at time 0 acknowledged by an internal comment at time 5, and
an external comment at time 10 with no later internal reply. -/
theorem c6_witness :
    ∃ u, check_for_customer_comments
        [⟨"bob@example.com", some 0⟩, ⟨"amy@cirium.com", some 5⟩,
          ⟨"carl@example.com", some 10⟩] = .ok u ∧
      ∀ c, c ∈ u ↔ (c ∈ [(⟨"bob@example.com", some 0⟩ : JiraComment),
          ⟨"amy@cirium.com", some 5⟩, ⟨"carl@example.com", some 10⟩] ∧
        c.author_emailAddress ≠ "" ∧
        isInternalEmail c.author_emailAddress = false ∧
        ∀ tc, c.created = some tc →
          ¬ ∃ r ∈ [(⟨"bob@example.com", some 0⟩ : JiraComment),
              ⟨"amy@cirium.com", some 5⟩, ⟨"carl@example.com", some 10⟩],
            isInternalEmail r.author_emailAddress = true ∧
            ∃ tr, r.created = some tr ∧ tc < tr) :=
  c6_unacknowledged_iff
    [⟨"bob@example.com", some 0⟩, ⟨"amy@cirium.com", some 5⟩, ⟨"carl@example.com", some 10⟩]
    (by decide)

/-! ## C7: totality of the unacknowledged-comment scan -/

/-- C7 (code behavior at the failing input): an issue with one external
comment whose `created` field is missing or empty makes
`check_for_customer_comments` raise `ValueError` out of
`datetime.fromisoformat` — the function's only except clause catches
`RequestException`, so the computation does not complete, contradicting the
claim that a missing timestamp is treated as "not later". -/
theorem c7_missing_timestamp_raises :
    check_for_customer_comments [missingTimestampComment] =
      .error "ValueError: Invalid isoformat string" := rfl

/-! ## C8: team-membership attribution of the last comment -/

/-- C8 (counterexample): when the team-membership fetch fails, the memoized
set is the empty list and the derived `last_comment_by_team` field of an item
whose last comment does carry an account id is `False` — the unresolved
membership is coerced to `False`, not propagated as a third logical state
distinct from `True` and `False`. -/
theorem c8_counterexample :
    last_comment_by_team (.error "401 Unauthorized") [⟨"acct-123"⟩] = some false ∧
    some false ≠ (none : Option Bool) :=
  ⟨rfl, by decide⟩

/-- C8 (amended): for an analyzed issue whose last comment has an author
account id, `last_comment_by_team` is `True` iff that account id is in the
memoized team-membership set; the third state `None` arises exactly when the
last comment has no account id (or the issue has no comments), while a failed
membership fetch resolves the memoized set to the empty list and hence coerces
the field to `False`. -/
theorem c8_last_comment_attribution (fetch : Except String (List String))
    (comments : List IssueComment) (lastComment : IssueComment)
    (hlast : comments.getLast? = some lastComment) :
    (lastComment.author_accountId ≠ "" →
      (last_comment_by_team fetch comments = some true ↔
        (teamMembersResolved fetch).contains lastComment.author_accountId = true)) ∧
    (lastComment.author_accountId = "" → last_comment_by_team fetch comments = none) ∧
    (∀ msg, fetch = .error msg → lastComment.author_accountId ≠ "" →
      last_comment_by_team fetch comments = some false) := by
  refine ⟨?_, ?_, ?_⟩
  · intro hne
    simp only [last_comment_by_team, hlast]
    rw [if_pos hne]
    constructor
    · intro h
      exact Option.some.inj h
    · intro h
      exact congrArg some h
  · intro hempty
    simp only [last_comment_by_team, hlast]
    rw [if_neg (by simp [hempty])]
  · intro msg hfetch hne
    subst hfetch
    simp only [last_comment_by_team, hlast]
    rw [if_pos hne]
    rfl

/-- C8 (witness): the amended theorem applied to a successfully fetched
two-member team and an issue whose last comment was authored by the second
member. -/
theorem c8_witness :
    ((⟨"acct-2"⟩ : IssueComment).author_accountId ≠ "" →
      (last_comment_by_team (.ok ["acct-1", "acct-2"]) [⟨"acct-9"⟩, ⟨"acct-2"⟩] = some true ↔
        (teamMembersResolved (.ok ["acct-1", "acct-2"])).contains
          (⟨"acct-2"⟩ : IssueComment).author_accountId = true)) ∧
    ((⟨"acct-2"⟩ : IssueComment).author_accountId = "" →
      last_comment_by_team (.ok ["acct-1", "acct-2"]) [⟨"acct-9"⟩, ⟨"acct-2"⟩] = none) ∧
    (∀ msg, (.ok ["acct-1", "acct-2"] : Except String (List String)) = .error msg →
      (⟨"acct-2"⟩ : IssueComment).author_accountId ≠ "" →
      last_comment_by_team (.ok ["acct-1", "acct-2"]) [⟨"acct-9"⟩, ⟨"acct-2"⟩] = some false) :=
  c8_last_comment_attribution (.ok ["acct-1", "acct-2"]) [⟨"acct-9"⟩, ⟨"acct-2"⟩]
    ⟨"acct-2"⟩ rfl

/-! ## C9: the remote query clients never raise past their boundary -/

/-- C9: every failure mode of the two remote query clients — a transport
error or timeout, an HTTP error status (401 auth failure, 404 not-found,
or any other 4xx/5xx), a non-JSON response body, a `CalledProcessError`, a
`TimeoutExpired`, or any other exception — yields `None`/an empty list rather
than propagating an exception (the embeddings are total Lean functions), and
a caller such as `get_recent_commits` that treats a missing payload as "no
data" receives the empty list. -/
theorem c9_client_failures_yield_empty
    (msg stderr : String) (status : Nat) (body : Option JiraSearchBody)
    (parseJqLines : String → List Commit) :
    search_jira (.transportError msg) = [] ∧
    (400 ≤ status → status < 600 → search_jira (.response status body) = []) ∧
    search_jira (.response status none) = [] ∧
    run_gh_command (.processError stderr) = none ∧
    run_gh_command .timedOut = none ∧
    run_gh_command (.otherFailure msg) = none ∧
    get_recent_commits (.processError stderr) parseJqLines = [] ∧
    get_recent_commits .timedOut parseJqLines = [] ∧
    get_recent_commits (.otherFailure msg) parseJqLines = [] := by
  have hgh : run_gh_command (.processError stderr) = none := ite_self none
  refine ⟨rfl, ?_, ?_, hgh, rfl, rfl, ?_, rfl, rfl⟩
  · intro h1 h2
    exact if_pos ⟨h1, h2⟩
  · exact ite_self []
  · rw [get_recent_commits, hgh]

/-- C9 (witness): the boundary theorem applied to a concrete 404 process
error, a concrete transport failure, and a 404 HTTP status. -/
theorem c9_witness :
    search_jira (.transportError "ConnectTimeout") = [] ∧
    (400 ≤ 404 → 404 < 600 →
      search_jira (.response 404 (some ⟨some [⟨"CDPSUPPORT-1"⟩]⟩)) = []) ∧
    search_jira (.response 404 none) = [] ∧
    run_gh_command (.processError "gh: Not Found (HTTP 404)") = none ∧
    run_gh_command .timedOut = none ∧
    run_gh_command (.otherFailure "boom") = none ∧
    get_recent_commits (.processError "gh: Not Found (HTTP 404)") (fun _ => []) = [] ∧
    get_recent_commits .timedOut (fun _ => []) = [] ∧
    get_recent_commits (.otherFailure "boom") (fun _ => []) = [] :=
  c9_client_failures_yield_empty "ConnectTimeout" "gh: Not Found (HTTP 404)" 404
    (some ⟨some [⟨"CDPSUPPORT-1"⟩]⟩) (fun _ => [])

/-! ## C10: derivation of the JSON output path -/

/-- Helper: when `.txt` does not occur in the path, `replace('.txt', '.json')`
returns the path unchanged. -/
theorem replaceTxt_of_not_containsTxt (l : List Char) (h : containsTxt l = false) :
    replaceTxtWithJson l = l := by
  induction l with
  | nil =>
    rw [replaceTxtWithJson]
    rw [if_neg (by decide)]
  | cons c rest ih =>
    rw [containsTxt] at h
    rw [Bool.or_eq_false_iff] at h
    obtain ⟨h1, h2⟩ := h
    rw [replaceTxtWithJson]
    rw [if_neg ?hcond]
    case hcond =>
      intro hcontra
      rw [List.take_succ_cons] at hcontra
      have hc : c = '.' := (List.cons.inj hcontra).1
      have hrest : rest.take 3 = ['t', 'x', 't'] := (List.cons.inj hcontra).2
      rw [hc, hrest] at h1
      simp at h1
    show c :: replaceTxtWithJson rest = c :: rest
    rw [ih h2]

/-- C10: when an output file is requested, the JSON path is the narrative path
with every occurrence of `.txt` replaced by `.json`; consequently, for any
output filename not containing `.txt`, the JSON path equals the narrative
path, and after `run` writes the narrative report and then the JSON dump, the
file at that path holds the JSON dump (which overwrote the just-written
narrative report). -/
theorem c10_json_path_overwrites (output_file narrativeReport jsonData : String)
    (h : containsTxt output_file.data = false) :
    jsonFilePath output_file = output_file ∧
    finalContents [(output_file, narrativeReport)] output_file = some narrativeReport ∧
    finalContents (runFileWrites output_file narrativeReport jsonData) output_file =
      some jsonData := by
  have heq : jsonFilePath output_file = output_file := by
    rw [jsonFilePath, replaceTxt_of_not_containsTxt _ h]
  refine ⟨heq, ?_, ?_⟩
  · simp [finalContents]
  · rw [runFileWrites, heq]
    simp [finalContents]

/-- C10 (witness): the derivation theorem applied to the concrete output path
`report.out`, which contains no `.txt`. -/
theorem c10_witness :
    jsonFilePath "report.out" = "report.out" ∧
    finalContents [("report.out", "narrative")] "report.out" = some "narrative" ∧
    finalContents (runFileWrites "report.out" "narrative" "jsondata") "report.out" =
      some "jsondata" :=
  c10_json_path_overwrites "report.out" "narrative" "jsondata" (by decide)

/-! ## Additional witnesses -/

/-- C4 (witness): the exit-code theorem applied to a report whose only flagged
category is one stale item (Jira exit code 1), and to a completed GitHub run
over a vulnerable-and-active repository (exit code 0). -/
theorem c4_witness :
    (jiraMainExitCode staleOnlyReport ≠ 0 ↔
      (staleOnlyReport.stale_items ≠ [] ∨ staleOnlyReport.unacknowledged_comments ≠ [] ∨
        staleOnlyReport.triage_items ≠ [])) ∧
    githubMainExitCode (.completed [attentionResult]) = 0 :=
  c4_exit_codes staleOnlyReport [attentionResult]

/-- C5 (witness): the sort theorem applied to the spec's four-item scenario:
two zero-comment items interleaved with comments dated 2024-01-05 and
2024-01-01. -/
theorem c5_witness :
    (sortItemsByCommentActivity [itemNoComments "A", itemCommented "B" "2024-01-05",
        itemNoComments "C", itemCommented "D" "2024-01-01"]).Perm
      [itemNoComments "A", itemCommented "B" "2024-01-05",
        itemNoComments "C", itemCommented "D" "2024-01-01"] ∧
    (∀ (i j : Nat)
        (hi : i < (sortItemsByCommentActivity [itemNoComments "A",
          itemCommented "B" "2024-01-05", itemNoComments "C",
          itemCommented "D" "2024-01-01"]).length)
        (hj : j < (sortItemsByCommentActivity [itemNoComments "A",
          itemCommented "B" "2024-01-05", itemNoComments "C",
          itemCommented "D" "2024-01-01"]).length), i < j →
        ((sortItemsByCommentActivity [itemNoComments "A", itemCommented "B" "2024-01-05",
          itemNoComments "C", itemCommented "D" "2024-01-01"]).get ⟨j, hj⟩).last_comment_date =
            none →
        ((sortItemsByCommentActivity [itemNoComments "A", itemCommented "B" "2024-01-05",
          itemNoComments "C", itemCommented "D" "2024-01-01"]).get ⟨i, hi⟩).last_comment_date =
            none) ∧
    (sortItemsByCommentActivity [itemNoComments "A", itemCommented "B" "2024-01-05",
        itemNoComments "C", itemCommented "D" "2024-01-01"]).Pairwise
      (fun a b => ∀ da db, a.last_comment_date = some da →
        b.last_comment_date = some db → da ≤ db) ∧
    (sortItemsByCommentActivity [itemNoComments "A", itemCommented "B" "2024-01-05",
        itemNoComments "C", itemCommented "D" "2024-01-01"]).filter
      (fun it => it.last_comment_date.isNone) =
      [itemNoComments "A", itemCommented "B" "2024-01-05",
        itemNoComments "C", itemCommented "D" "2024-01-01"].filter
      (fun it => it.last_comment_date.isNone) :=
  c5_comment_activity_sort [itemNoComments "A", itemCommented "B" "2024-01-05",
    itemNoComments "C", itemCommented "D" "2024-01-01"]
